import Mathlib

/-!
Shallow embedding of the tool-call dispatch engine of the postgres-mcp-server
repository (src/index.ts, handler registered for CallToolRequestSchema,
lines 166-231), together with the statement builders of the individual
switch cases (lines 174-217) and the finally block (lines 227-230).

The embedding models the JavaScript semantics the handler relies on:
untyped argument values, property access on possibly-undefined objects,
Object.keys / Object.values / Object.entries iteration, template-literal
interpolation of non-string values, and the pg client as an oracle that
answers each issued statement with either a row list or a thrown error.
The database oracle may answer differently at each call position of a
single dispatch (it receives the index of the statement within the call),
so a proof quantified over oracles covers every per-statement outcome.
-/

namespace PgMcp

/-- A JavaScript value as it can appear in request.params.arguments and in
rows returned by the pg driver. Numbers are modelled as integers: every
numeric literal the handler or the claims manipulate is integral, and no
claim depends on float behavior. -/
inductive JsVal where
  | vUndefined : JsVal
  | vNull : JsVal
  | vStr : String → JsVal
  | vNum : Int → JsVal
  | vBool : Bool → JsVal
  | vObj : List (String × JsVal) → JsVal
deriving Repr

/-- Template-literal interpolation of a JavaScript value, as in
the backquoted SQL strings of src/index.ts lines 187, 201 and 211:
undefined interpolates as the text undefined, null as null, numbers and
booleans via toString, plain objects as [object Object]. -/
def templateStr : JsVal → String
  | .vUndefined => "undefined"
  | .vNull => "null"
  | .vStr s => s
  | .vNum n => toString n
  | .vBool true => "true"
  | .vBool false => "false"
  | .vObj _ => "[object Object]"

/-- Property access v[k] on a JavaScript value, as in args.sql, args.table,
args.values, args.where (src/index.ts lines 176, 184-187, 197-201, 211).
Reading a property of undefined or null throws a TypeError; a missing key
on an object yields undefined; the fixed keys the handler reads do not
exist on primitive values, so those yield undefined. -/
def getProp : JsVal → String → Except String JsVal
  | .vUndefined, k =>
      .error ("Cannot read properties of undefined (reading \x27" ++ k ++ "\x27)")
  | .vNull, k =>
      .error ("Cannot read properties of null (reading \x27" ++ k ++ "\x27)")
  | .vObj es, k =>
      .ok (match es.find? (fun p => p.1 == k) with
           | some p => p.2
           | none => .vUndefined)
  | .vStr _, _ => .ok .vUndefined
  | .vNum _, _ => .ok .vUndefined
  | .vBool _, _ => .ok .vUndefined

/-- Object.entries of a JavaScript value (Object.keys and Object.values are
its two projections and iterate in the same order, src/index.ts lines
184-186 and 197-200): a TypeError on undefined and null, the own entries of
an object in insertion order, index-keyed characters of a string, and no
entries for numbers and booleans. -/
def objectEntries : JsVal → Except String (List (String × JsVal))
  | .vUndefined => .error "Cannot convert undefined or null to object"
  | .vNull => .error "Cannot convert undefined or null to object"
  | .vObj es => .ok es
  | .vStr s => .ok (s.data.mapIdx (fun i c => (toString i, JsVal.vStr c.toString)))
  | .vNum _ => .ok []
  | .vBool _ => .ok []

/-- JSON.stringify as applied to driver rows when the handler renders a
response (src/index.ts lines 178, 191, 205, 214). Whitespace from the
third argument and escaping inside strings are not reproduced; no claim
depends on the rendered text beyond which value is serialized. -/
def jsonStringify : JsVal → String
  | .vUndefined => "undefined"
  | .vNull => "null"
  | .vStr s => "\x22" ++ s ++ "\x22"
  | .vNum n => toString n
  | .vBool true => "true"
  | .vBool false => "false"
  | .vObj es =>
      "\x7b" ++
        String.intercalate ","
          (es.attach.map (fun p => "\x22" ++ p.1.1 ++ "\x22:" ++ jsonStringify p.1.2)) ++
        "\x7d"
decreasing_by
  obtain ⟨⟨k, v⟩, hmem⟩ := p
  have h1 := List.sizeOf_lt_of_mem hmem
  simp at h1 ⊢
  omega

/-- JSON.stringify of the rows array itself (query, update, delete render
result.rows as an array). -/
def jsonStringifyRows (rows : List JsVal) : String :=
  "[" ++ String.intercalate "," (rows.map jsonStringify) ++ "]"

/-- A statement as handed to client.query: the sql argument (the handler
passes args.sql through verbatim in the query case, so it may be any
JavaScript value) and the positional parameter list. -/
structure Stmt where
  sql : JsVal
  params : List JsVal
deriving Repr

/-- Outcome of executing one statement on the pg client: a row list, or a
thrown driver error carrying a message. -/
inductive ExecResult where
  | ok : List JsVal → ExecResult
  | err : String → ExecResult

/-- The database as seen through client.query: an oracle answering the
i-th statement issued within one dispatch call. Indexing by call position
lets one oracle give independent answers to each statement of a call. -/
def DbOracle := Nat → JsVal → List JsVal → ExecResult

/-- The caller-facing response shape: content is a list of text items
(every item the handler builds has type text, so only the text strings are
kept) plus the isError flag. -/
structure Response where
  contentTexts : List String
  isError : Bool
deriving Repr, DecidableEq

/-- Events observable on the pooled connection during one dispatch call. -/
inductive Event where
  | acquire : Event
  | exec : JsVal → List JsVal → Event
  | release : Event
deriving Repr

/-- src/index.ts line 184: Object.keys(args.values).map(quote), kept as a
list before the join. -/
def insertColumns (entries : List (String × JsVal)) : List String :=
  entries.map (fun p => "\x22" ++ p.1 ++ "\x22")

/-- src/index.ts line 185 (and line 200 for update): Object.values. -/
def insertValues (entries : List (String × JsVal)) : List JsVal :=
  entries.map Prod.snd

/-- src/index.ts line 186: values.map((_, i) => placeholder i+1), kept as a
list before the join. -/
def insertPlaceholders (values : List JsVal) : List String :=
  values.mapIdx (fun i _ => "$" ++ toString (i + 1))

/-- src/index.ts line 187: the INSERT statement text, with the column and
placeholder lists joined by comma-space. -/
def insertSql (table : JsVal) (entries : List (String × JsVal)) : String :=
  "INSERT INTO \x22" ++ templateStr table ++ "\x22 (" ++
    String.intercalate ", " (insertColumns entries) ++ ") VALUES (" ++
    String.intercalate ", " (insertPlaceholders (insertValues entries)) ++
    ") RETURNING *"

/-- src/index.ts lines 197-199: Object.entries(args.values).map(([key], i)
=> assignment), kept as a list before the join. -/
def updateSetParts (entries : List (String × JsVal)) : List String :=
  entries.mapIdx (fun i p => "\x22" ++ p.1 ++ "\x22 = $" ++ toString (i + 1))

/-- src/index.ts line 200: Object.values for the update parameter list. -/
def updateValues (entries : List (String × JsVal)) : List JsVal :=
  entries.map Prod.snd

/-- src/index.ts line 201: the UPDATE statement text; the where clause is
interpolated verbatim and unparameterized. -/
def updateSql (table : JsVal) (entries : List (String × JsVal)) (wher : JsVal) : String :=
  "UPDATE \x22" ++ templateStr table ++ "\x22 SET " ++
    String.intercalate ", " (updateSetParts entries) ++
    " WHERE " ++ templateStr wher ++ " RETURNING *"

/-- src/index.ts line 211: the DELETE statement text; the where clause is
interpolated verbatim and unparameterized. -/
def deleteSql (table : JsVal) (wher : JsVal) : String :=
  "DELETE FROM \x22" ++ templateStr table ++ "\x22 WHERE " ++
    templateStr wher ++ " RETURNING *"

/-- The first statement of the query case (src/index.ts line 175). -/
def beginStmt : Stmt := ⟨.vStr "BEGIN TRANSACTION READ ONLY", []⟩

/-- src/index.ts lines 174-181, case query: BEGIN TRANSACTION READ ONLY,
then args.sql passed to client.query verbatim with no parameters. Returns
the statements issued inside the try block, in order, and either the
returned response or the thrown error message. -/
def runQuery (db : DbOracle) (args : JsVal) : List Stmt × Except String Response :=
  match db 0 (.vStr "BEGIN TRANSACTION READ ONLY") [] with
  | .err m => ([beginStmt], .error m)
  | .ok _ =>
    match getProp args "sql" with
    | .error m => ([beginStmt], .error m)
    | .ok sqlv =>
      match db 1 sqlv [] with
      | .err m => ([beginStmt, ⟨sqlv, []⟩], .error m)
      | .ok rows => ([beginStmt, ⟨sqlv, []⟩], .ok ⟨[jsonStringifyRows rows], false⟩)

/-- src/index.ts lines 183-194, case insert: build the statement from
Object.keys and Object.values of args.values (a TypeError there is thrown
before any statement is issued), execute it with the ordered parameter
list, and render the first returned row. -/
def runInsert (db : DbOracle) (args : JsVal) : List Stmt × Except String Response :=
  match getProp args "values" with
  | .error m => ([], .error m)
  | .ok vals =>
    match objectEntries vals with
    | .error m => ([], .error m)
    | .ok entries =>
      match getProp args "table" with
      | .error m => ([], .error m)
      | .ok table =>
        let sql := insertSql table entries
        let values := insertValues entries
        match db 0 (.vStr sql) values with
        | .err m => ([⟨.vStr sql, values⟩], .error m)
        | .ok rows => ([⟨.vStr sql, values⟩], .ok ⟨[jsonStringify (rows.headD .vUndefined)], false⟩)

/-- src/index.ts lines 196-208, case update: build the SET clause from
Object.entries of args.values, append args.where verbatim, execute with
the ordered parameter list, render all returned rows. -/
def runUpdate (db : DbOracle) (args : JsVal) : List Stmt × Except String Response :=
  match getProp args "values" with
  | .error m => ([], .error m)
  | .ok vals =>
    match objectEntries vals with
    | .error m => ([], .error m)
    | .ok entries =>
      match getProp args "table" with
      | .error m => ([], .error m)
      | .ok table =>
        match getProp args "where" with
        | .error m => ([], .error m)
        | .ok wher =>
          let sql := updateSql table entries wher
          let values := updateValues entries
          match db 0 (.vStr sql) values with
          | .err m => ([⟨.vStr sql, values⟩], .error m)
          | .ok rows => ([⟨.vStr sql, values⟩], .ok ⟨[jsonStringifyRows rows], false⟩)

/-- src/index.ts lines 210-217, case delete: interpolate args.table and
args.where into the statement text, execute it with no parameter list,
render all returned rows. -/
def runDelete (db : DbOracle) (args : JsVal) : List Stmt × Except String Response :=
  match getProp args "table" with
  | .error m => ([], .error m)
  | .ok table =>
    match getProp args "where" with
    | .error m => ([], .error m)
    | .ok wher =>
      let sql := deleteSql table wher
      match db 0 (.vStr sql) [] with
      | .err m => ([⟨.vStr sql, []⟩], .error m)
      | .ok rows => ([⟨.vStr sql, []⟩], .ok ⟨[jsonStringifyRows rows], false⟩)

/-- The try block of the handler (src/index.ts lines 172-221): the switch
on the operation name, with the default case throwing Unknown tool. A
switch on a string compares with strict equality, rendered here as an
if-chain. -/
def runTry (db : DbOracle) (name : String) (args : JsVal) : List Stmt × Except String Response :=
  if name = "query" then runQuery db args
  else if name = "insert" then runInsert db args
  else if name = "update" then runUpdate db args
  else if name = "delete" then runDelete db args
  else ([], .error ("Unknown tool: " ++ name))

/-- The catch block (src/index.ts lines 222-226): any thrown fault becomes
a single text item with the error message and isError true. -/
def errorResponse (m : String) : Response := ⟨["Error: " ++ m], true⟩

/-- The whole handler (src/index.ts lines 166-231): acquire a pooled
connection, run the try block, normalize a thrown fault via the catch
block, then the finally block issues ROLLBACK on the connection with its
outcome discarded by .catch and releases the connection. The second
component is the full event trace on the leased connection. -/
def dispatch (db : DbOracle) (name : String) (args : JsVal) : Response × List Event :=
  let tr := runTry db name args
  let resp := match tr.2 with
    | .ok r => r
    | .error m => errorResponse m
  (resp,
    .acquire ::
      (tr.1.map (fun s => Event.exec s.sql s.params) ++
        [.exec (.vStr "ROLLBACK") [], .release]))

/-- True of the release event only. -/
def isRelease : Event → Bool
  | .release => true
  | _ => false

/-- True of the acquire event only. -/
def isAcquire : Event → Bool
  | .acquire => true
  | _ => false

/-- True of a statement whose text is exactly the explicit BEGIN command
the query case issues. -/
def isBeginStmt (s : Stmt) : Bool :=
  match s.sql with
  | .vStr t => t == "BEGIN TRANSACTION READ ONLY"
  | _ => false

/-- The statements carried by the exec events of a trace, in order. -/
def execsOf : List Event → List Stmt :=
  List.filterMap (fun e =>
    match e with
    | .exec s p => some ⟨s, p⟩
    | _ => none)

/-- The statements of a trace that affect connection or database state,
given whether a transaction is currently open: a ROLLBACK with no open
transaction is a no-op and affects nothing; every other statement
(including a BEGIN, and conservatively any non-string query value) is
counted as affecting. -/
def affecting : Bool → List Stmt → List Stmt
  | _, [] => []
  | b, s :: rest =>
    match s.sql with
    | .vStr t =>
      if t = "ROLLBACK" then
        (if b then s :: affecting false rest else affecting false rest)
      else if t = "BEGIN TRANSACTION READ ONLY" then s :: affecting true rest
      else s :: affecting b rest
    | _ => s :: affecting b rest

/-- The query case always issues its BEGIN statement, so at least one
statement is recorded. -/
lemma runQuery_length_pos (db : DbOracle) (args : JsVal) :
    0 < (runQuery db args).1.length := by
  unfold runQuery
  split
  · simp
  split
  · simp
  split <;> simp

/-- Two oracles agreeing on every call position the query case reaches
produce the same query-case behavior. -/
lemma runQuery_congr (db db' : DbOracle) (args : JsVal)
    (h : ∀ i s p, i < (runQuery db args).1.length → db' i s p = db i s p) :
    runQuery db' args = runQuery db args := by
  have h0 : db' 0 (.vStr "BEGIN TRANSACTION READ ONLY") []
      = db 0 (.vStr "BEGIN TRANSACTION READ ONLY") [] :=
    h 0 _ _ (runQuery_length_pos db args)
  unfold runQuery
  rw [h0]
  split
  · rfl
  next rows hb =>
    split
    · rfl
    next v hg =>
      have h1 : db' 1 v [] = db 1 v [] := by
        apply h
        unfold runQuery
        simp only [hb, hg]
        split <;> simp
      rw [h1]

/-- Two oracles agreeing on every call position the insert case reaches
produce the same insert-case behavior. -/
lemma runInsert_congr (db db' : DbOracle) (args : JsVal)
    (h : ∀ i s p, i < (runInsert db args).1.length → db' i s p = db i s p) :
    runInsert db' args = runInsert db args := by
  unfold runInsert
  split
  · rfl
  next vals hv =>
    split
    · rfl
    next entries he =>
      split
      · rfl
      next table ht =>
        have h0 : db' 0 (.vStr (insertSql table entries)) (insertValues entries)
            = db 0 (.vStr (insertSql table entries)) (insertValues entries) := by
          apply h
          unfold runInsert
          simp only [hv, he, ht]
          split <;> simp
        dsimp only
        rw [h0]

/-- Two oracles agreeing on every call position the update case reaches
produce the same update-case behavior. -/
lemma runUpdate_congr (db db' : DbOracle) (args : JsVal)
    (h : ∀ i s p, i < (runUpdate db args).1.length → db' i s p = db i s p) :
    runUpdate db' args = runUpdate db args := by
  unfold runUpdate
  split
  · rfl
  next vals hv =>
    split
    · rfl
    next entries he =>
      split
      · rfl
      next table ht =>
        split
        · rfl
        next wher hw =>
          have h0 : db' 0 (.vStr (updateSql table entries wher)) (updateValues entries)
              = db 0 (.vStr (updateSql table entries wher)) (updateValues entries) := by
            apply h
            unfold runUpdate
            simp only [hv, he, ht, hw]
            split <;> simp
          dsimp only
          rw [h0]

/-- Two oracles agreeing on every call position the delete case reaches
produce the same delete-case behavior. -/
lemma runDelete_congr (db db' : DbOracle) (args : JsVal)
    (h : ∀ i s p, i < (runDelete db args).1.length → db' i s p = db i s p) :
    runDelete db' args = runDelete db args := by
  unfold runDelete
  split
  · rfl
  next table ht =>
    split
    · rfl
    next wher hw =>
      have h0 : db' 0 (.vStr (deleteSql table wher)) []
          = db 0 (.vStr (deleteSql table wher)) [] := by
        apply h
        unfold runDelete
        simp only [ht, hw]
        split <;> simp
      dsimp only
      rw [h0]

/-- Two oracles agreeing on every call position the try block reaches
produce the same try-block behavior, for every operation name. -/
lemma runTry_congr (db db' : DbOracle) (name : String) (args : JsVal)
    (h : ∀ i s p, i < (runTry db name args).1.length → db' i s p = db i s p) :
    runTry db' name args = runTry db name args := by
  by_cases h1 : name = "query"
  · subst h1
    have e : ∀ d : DbOracle, runTry d "query" args = runQuery d args := by
      intro d
      simp [runTry]
    rw [e db'] at *
    rw [e db] at h ⊢
    exact runQuery_congr db db' args h
  by_cases h2 : name = "insert"
  · subst h2
    have e : ∀ d : DbOracle, runTry d "insert" args = runInsert d args := by
      intro d
      simp [runTry]
    rw [e db'] at *
    rw [e db] at h ⊢
    exact runInsert_congr db db' args h
  by_cases h3 : name = "update"
  · subst h3
    have e : ∀ d : DbOracle, runTry d "update" args = runUpdate d args := by
      intro d
      simp [runTry]
    rw [e db'] at *
    rw [e db] at h ⊢
    exact runUpdate_congr db db' args h
  by_cases h4 : name = "delete"
  · subst h4
    have e : ∀ d : DbOracle, runTry d "delete" args = runDelete d args := by
      intro d
      simp [runTry]
    rw [e db'] at *
    rw [e db] at h ⊢
    exact runDelete_congr db db' args h
  simp [runTry, h1, h2, h3, h4]

/-- C1: for every tool call, whatever the operation name, the argument
value and the database behavior (success, driver error at any statement,
a statement-building TypeError before any statement runs, or an unknown
operation name), the trace on the leased connection contains exactly one
release event and exactly one acquire event: the lease acquired at
dispatch start is released exactly once on every exit path. -/
theorem lease_released_exactly_once (db : DbOracle) (name : String) (args : JsVal) :
    ((dispatch db name args).2.countP (fun e => isRelease e)) = 1 ∧
    ((dispatch db name args).2.countP (fun e => isAcquire e)) = 1 := by
  unfold dispatch
  constructor <;>
    simp [List.countP_cons, List.countP_append, List.countP_map, isRelease, isAcquire,
      Function.comp, List.countP_eq_zero]

/-- C2: for every tool call, the trace on the leased connection is the
acquire, then the statements of the operation itself, then a ROLLBACK,
then the release: the ROLLBACK is issued after the operation and before
the connection is released on every call. Moreover any oracle that agrees
with db on the call positions the operation itself reaches, and is free to
answer the trailing ROLLBACK (and anything beyond) arbitrarily, including
with an error, produces the identical response and identical trace: the
outcome of the trailing ROLLBACK is discarded by the catch handler on it
and is never observable to the caller. In particular a ROLLBACK issued
after a fully auto-committed write raises no fault visible in the
response. -/
theorem rollback_after_every_call_suppressed (db db' : DbOracle) (name : String) (args : JsVal)
    (h : ∀ i s p, i < (runTry db name args).1.length → db' i s p = db i s p) :
    (dispatch db' name args).1 = (dispatch db name args).1 ∧
    (dispatch db' name args).2 = (dispatch db name args).2 ∧
    (dispatch db name args).2 =
      .acquire ::
        ((runTry db name args).1.map (fun s => Event.exec s.sql s.params) ++
          [.exec (.vStr "ROLLBACK") [], .release]) := by
  have hr := runTry_congr db db' name args h
  unfold dispatch
  rw [hr]
  exact ⟨rfl, rfl, rfl⟩

/-- A row as the database could return it for the running example. -/
def rowAlice : JsVal := .vObj [("id", .vNum 1), ("name", .vStr "Alice"), ("age", .vNum 30)]

/-- An oracle on which every statement succeeds and returns the example
row. -/
def dbOk : DbOracle := fun _ _ _ => .ok [rowAlice]

/-- An oracle that answers the first statement of a call like dbOk and
fails every later statement, as a database does when the trailing ROLLBACK
itself errors. -/
def dbRollbackErr : DbOracle := fun i _ _ =>
  if i = 0 then .ok [rowAlice] else .err "no transaction in progress"

/-- The arguments of the running insert example: insert into users the
values map with name Alice and age 30. -/
def argsIns : JsVal :=
  .vObj [("table", .vStr "users"),
         ("values", .vObj [("name", .vStr "Alice"), ("age", .vNum 30)])]

theorem rollback_after_every_call_suppressed_witness :
    (dispatch dbRollbackErr "insert" argsIns).1 = (dispatch dbOk "insert" argsIns).1 ∧
    (dispatch dbRollbackErr "insert" argsIns).2 = (dispatch dbOk "insert" argsIns).2 ∧
    (dispatch dbOk "insert" argsIns).2 =
      .acquire ::
        ((runTry dbOk "insert" argsIns).1.map (fun s => Event.exec s.sql s.params) ++
          [.exec (.vStr "ROLLBACK") [], .release]) :=
  rollback_after_every_call_suppressed dbOk dbRollbackErr "insert" argsIns (by
    intro i s p hi
    have hlen : (runTry dbOk "insert" argsIns).1.length = 1 := rfl
    rw [hlen] at hi
    have h0 : i = 0 := by omega
    subst h0
    rfl)

/-- A string whose first character differs from B is not the BEGIN
command. -/
lemma ne_begin_of_first (pre post : String) (c : Char) (t : String)
    (hpre : pre.data = c :: t.data) (hc : c ≠ 'B') :
    pre ++ post ≠ "BEGIN TRANSACTION READ ONLY" := by
  intro he
  have h2 := congrArg String.data he
  rw [String.data_append, hpre] at h2
  have hb : ("BEGIN TRANSACTION READ ONLY" : String).data
      = 'B' :: ("EGIN TRANSACTION READ ONLY" : String).data := rfl
  rw [hb] at h2
  simp only [List.cons_append, List.cons.injEq] at h2
  exact hc h2.1

/-- The INSERT statement text built for any table and values is never the
explicit BEGIN command. -/
lemma insertSql_ne_begin (table : JsVal) (entries : List (String × JsVal)) :
    insertSql table entries ≠ "BEGIN TRANSACTION READ ONLY" := by
  unfold insertSql
  simp only [String.append_assoc]
  exact ne_begin_of_first _ _ 'I' "NSERT INTO \x22" rfl (by decide)

/-- The UPDATE statement text built for any table, values and where clause
is never the explicit BEGIN command. -/
lemma updateSql_ne_begin (table : JsVal) (entries : List (String × JsVal)) (wher : JsVal) :
    updateSql table entries wher ≠ "BEGIN TRANSACTION READ ONLY" := by
  unfold updateSql
  simp only [String.append_assoc]
  exact ne_begin_of_first _ _ 'U' "PDATE \x22" rfl (by decide)

/-- The DELETE statement text built for any table and where clause is
never the explicit BEGIN command. -/
lemma deleteSql_ne_begin (table : JsVal) (wher : JsVal) :
    deleteSql table wher ≠ "BEGIN TRANSACTION READ ONLY" := by
  unfold deleteSql
  simp only [String.append_assoc]
  exact ne_begin_of_first _ _ 'D' "ELETE FROM \x22" rfl (by decide)

/-- The query case always issues the BEGIN statement first and issues at
most one further statement. -/
lemma runQuery_shape (db : DbOracle) (args : JsVal) :
    (runQuery db args).1.head? = some beginStmt ∧ (runQuery db args).1.length ≤ 2 := by
  unfold runQuery
  split
  · simp
  split
  · simp
  split <;> simp

/-- The insert case never issues the explicit BEGIN command and issues at
most one statement. -/
lemma runInsert_shape (db : DbOracle) (args : JsVal) :
    (runInsert db args).1.countP (fun s => isBeginStmt s) = 0 ∧
    (runInsert db args).1.length ≤ 1 := by
  unfold runInsert
  split
  · simp
  split
  · simp
  split
  · simp
  next table ht =>
    dsimp only
    split <;>
      next entries he =>
        simp [isBeginStmt, List.countP_cons, insertSql_ne_begin]

/-- The update case never issues the explicit BEGIN command and issues at
most one statement. -/
lemma runUpdate_shape (db : DbOracle) (args : JsVal) :
    (runUpdate db args).1.countP (fun s => isBeginStmt s) = 0 ∧
    (runUpdate db args).1.length ≤ 1 := by
  unfold runUpdate
  split
  · simp
  split
  · simp
  split
  · simp
  split
  · simp
  dsimp only
  split <;> simp [isBeginStmt, List.countP_cons, updateSql_ne_begin]

/-- The delete case never issues the explicit BEGIN command and issues at
most one statement. -/
lemma runDelete_shape (db : DbOracle) (args : JsVal) :
    (runDelete db args).1.countP (fun s => isBeginStmt s) = 0 ∧
    (runDelete db args).1.length ≤ 1 := by
  unfold runDelete
  split
  · simp
  split
  · simp
  dsimp only
  split <;> simp [isBeginStmt, List.countP_cons, deleteSql_ne_begin]

/-- C3: for every database behavior and argument value, the query case
issues BEGIN TRANSACTION READ ONLY as its first statement, before the
caller sql runs (at most one further statement follows it), while the
insert, update and delete cases never issue the explicit BEGIN command and
issue at most the single built statement, which therefore runs under the
ambient auto-commit semantics of the connection. -/
theorem transaction_scope_policy (db : DbOracle) (args : JsVal) :
    (runTry db "query" args).1.head? = some beginStmt ∧
    (runTry db "query" args).1.length ≤ 2 ∧
    ((runTry db "insert" args).1.countP (fun s => isBeginStmt s) = 0 ∧
      (runTry db "insert" args).1.length ≤ 1) ∧
    ((runTry db "update" args).1.countP (fun s => isBeginStmt s) = 0 ∧
      (runTry db "update" args).1.length ≤ 1) ∧
    ((runTry db "delete" args).1.countP (fun s => isBeginStmt s) = 0 ∧
      (runTry db "delete" args).1.length ≤ 1) := by
  have e1 : runTry db "query" args = runQuery db args := by simp [runTry]
  have e2 : runTry db "insert" args = runInsert db args := by simp [runTry]
  have e3 : runTry db "update" args = runUpdate db args := by simp [runTry]
  have e4 : runTry db "delete" args = runDelete db args := by simp [runTry]
  rw [e1, e2, e3, e4]
  exact ⟨(runQuery_shape db args).1, (runQuery_shape db args).2,
    runInsert_shape db args, runUpdate_shape db args, runDelete_shape db args⟩

/-- C4: for every insert values map with n entries, the quoted column
list, the placeholder list and the ordered parameter list all have length
n, and at every index i below n the column is the quoted key of the i-th
map entry, the placeholder is the positional marker for i+1, and the
parameter is the value of that same entry: columns and parameters match
position by position in Object entry iteration order. -/
theorem insert_columns_placeholders_aligned (entries : List (String × JsVal)) (i : Nat)
    (h : i < entries.length) :
    (insertColumns entries).length = entries.length ∧
    (insertPlaceholders (insertValues entries)).length = entries.length ∧
    (insertValues entries).length = entries.length ∧
    (insertColumns entries)[i]? = some ("\x22" ++ (entries.get ⟨i, h⟩).1 ++ "\x22") ∧
    (insertPlaceholders (insertValues entries))[i]? = some ("$" ++ toString (i + 1)) ∧
    (insertValues entries)[i]? = some (entries.get ⟨i, h⟩).2 := by
  refine ⟨by simp [insertColumns], by simp [insertPlaceholders, insertValues], by
    simp [insertValues], ?_, ?_, ?_⟩
  · rw [List.getElem?_eq_getElem (by simpa [insertColumns] using h)]
    simp [insertColumns, List.getElem_map]
  · rw [List.getElem?_eq_getElem (by simpa [insertPlaceholders, insertValues] using h)]
    simp [insertPlaceholders, insertValues, List.get_mapIdx]
  · rw [List.getElem?_eq_getElem (by simpa [insertValues] using h)]
    simp [insertValues]

theorem insert_columns_placeholders_aligned_witness :
    (insertColumns [("name", JsVal.vStr "Alice"), ("age", JsVal.vNum 30)]).length = 2 ∧
    (insertPlaceholders (insertValues [("name", JsVal.vStr "Alice"), ("age", JsVal.vNum 30)])).length = 2 ∧
    (insertValues [("name", JsVal.vStr "Alice"), ("age", JsVal.vNum 30)]).length = 2 ∧
    (insertColumns [("name", JsVal.vStr "Alice"), ("age", JsVal.vNum 30)])[1]? = some "\x22age\x22" ∧
    (insertPlaceholders (insertValues [("name", JsVal.vStr "Alice"), ("age", JsVal.vNum 30)]))[1]? = some "$2" ∧
    (insertValues [("name", JsVal.vStr "Alice"), ("age", JsVal.vNum 30)])[1]? = some (JsVal.vNum 30) := by
  have h := insert_columns_placeholders_aligned
    [("name", JsVal.vStr "Alice"), ("age", JsVal.vNum 30)] 1 (by decide)
  simpa using h

/-- C5: for every update call, the parameter list is the values of the map
entries in iteration order, the i-th SET fragment assigns the quoted i-th
key to the positional placeholder i+1, the statement text is the UPDATE
template with the where text interpolated verbatim and never
parameterized, and in particular the scenario update of users with values
age 31 and where id = 1 builds exactly the claimed SQL text with parameter
list holding 31 alone. -/
theorem update_statement_shape (table wher : JsVal) (entries : List (String × JsVal)) (i : Nat)
    (h : i < entries.length) :
    (updateSetParts entries).length = entries.length ∧
    (updateValues entries).length = entries.length ∧
    (updateSetParts entries)[i]? =
      some ("\x22" ++ (entries.get ⟨i, h⟩).1 ++ "\x22 = $" ++ toString (i + 1)) ∧
    (updateValues entries)[i]? = some (entries.get ⟨i, h⟩).2 ∧
    updateSql table entries wher =
      "UPDATE \x22" ++ templateStr table ++ "\x22 SET " ++
        String.intercalate ", " (updateSetParts entries) ++
        " WHERE " ++ templateStr wher ++ " RETURNING *" ∧
    updateSql (.vStr "users") [("age", .vNum 31)] (.vStr "id = 1") =
      "UPDATE \x22users\x22 SET \x22age\x22 = $1 WHERE id = 1 RETURNING *" ∧
    updateValues [("age", .vNum 31)] = [.vNum 31] := by
  refine ⟨by simp [updateSetParts], by simp [updateValues], ?_, ?_, rfl, by decide, rfl⟩
  · rw [List.getElem?_eq_getElem (by simpa [updateSetParts] using h)]
    simp [updateSetParts, List.get_mapIdx]
  · rw [List.getElem?_eq_getElem (by simpa [updateValues] using h)]
    simp [updateValues]

theorem update_statement_shape_witness :
    (updateSetParts [("age", JsVal.vNum 31)]).length = 1 ∧
    (updateValues [("age", JsVal.vNum 31)]).length = 1 ∧
    (updateSetParts [("age", JsVal.vNum 31)])[0]? = some "\x22age\x22 = $1" ∧
    (updateValues [("age", JsVal.vNum 31)])[0]? = some (JsVal.vNum 31) ∧
    updateSql (.vStr "users") [("age", JsVal.vNum 31)] (.vStr "id = 1") =
      "UPDATE \x22users\x22 SET " ++
        String.intercalate ", " (updateSetParts [("age", JsVal.vNum 31)]) ++
        " WHERE id = 1 RETURNING *" ∧
    updateSql (.vStr "users") [("age", JsVal.vNum 31)] (.vStr "id = 1") =
      "UPDATE \x22users\x22 SET \x22age\x22 = $1 WHERE id = 1 RETURNING *" ∧
    updateValues [("age", JsVal.vNum 31)] = [JsVal.vNum 31] := by
  have h := update_statement_shape (.vStr "users") (.vStr "id = 1")
    [("age", JsVal.vNum 31)] 0 (by decide)
  simpa using h

/-- C6: whenever a fault is raised during operation handling (a
statement-building TypeError, an unknown operation name, or a driver
error thrown by any statement), the call returns the single uniform error
shape: one text item carrying the message prefixed with Error, and the
isError flag set; the fault itself is absorbed by the catch block and the
dispatcher returns normally. -/
theorem fault_normalized_to_error_payload (db : DbOracle) (name : String) (args : JsVal)
    (m : String) (h : (runTry db name args).2 = Except.error m) :
    (dispatch db name args).1 = errorResponse m ∧
    (dispatch db name args).1.contentTexts = ["Error: " ++ m] ∧
    (dispatch db name args).1.isError = true := by
  refine ⟨?_, ?_, ?_⟩ <;> simp [dispatch, h, errorResponse]

theorem fault_normalized_to_error_payload_witness :
    (dispatch dbOk "unknown_op" (.vObj [])).1 = errorResponse "Unknown tool: unknown_op" ∧
    (dispatch dbOk "unknown_op" (.vObj [])).1.contentTexts = ["Error: Unknown tool: unknown_op"] ∧
    (dispatch dbOk "unknown_op" (.vObj [])).1.isError = true :=
  fault_normalized_to_error_payload dbOk "unknown_op" (.vObj []) "Unknown tool: unknown_op" rfl

/-- An oracle on which every statement fails with a driver error, as a
database does when asked to run malformed SQL. -/
def dbErr : DbOracle := fun _ _ _ => .err "syntax error at or near \x22undefined\x22"

/-- The arguments of a delete call that omits the required where
argument. -/
def argsDelNoWhere : JsVal := .vObj [("table", .vStr "users")]

/-- C7 counterexample: a delete call with the required where argument
missing is not aborted before execution. No validation error is raised:
the missing value is interpolated as the text undefined and the built
statement is executed against the database (the statement list of the try
block is nonempty and carries exactly that malformed DELETE), the error
payload arising only afterwards from the driver. This contradicts the
claim that such calls fail statement building and abort before any built
statement is executed. -/
theorem delete_missing_where_not_aborted :
    (runTry dbErr "delete" argsDelNoWhere).1 =
      [⟨.vStr "DELETE FROM \x22users\x22 WHERE undefined RETURNING *", []⟩] ∧
    (dispatch dbErr "delete" argsDelNoWhere).1 =
      errorResponse "syntax error at or near \x22undefined\x22" := by
  exact ⟨rfl, rfl⟩

/-- C7 amended: for every insert or update call whose values argument is
missing (undefined) or null, statement building throws a TypeError before
any statement is executed (the try block issues no statement at all), and
the call returns the normalized error payload. No analogous validation
exists for the where argument or for non-object values shapes: those are
interpolated into the statement text, which is then executed. -/
theorem missing_values_aborts_before_execution (db : DbOracle) (args : JsVal) (name : String)
    (hn : name = "insert" ∨ name = "update")
    (hv : getProp args "values" = .ok .vUndefined ∨ getProp args "values" = .ok .vNull) :
    (runTry db name args).1 = [] ∧
    (dispatch db name args).1 = errorResponse "Cannot convert undefined or null to object" := by
  rcases hn with rfl | rfl <;> rcases hv with hv | hv <;>
    constructor <;>
      simp [runTry, runInsert, runUpdate, dispatch, hv, objectEntries, errorResponse]

/-- The arguments of an update call whose values argument is null. -/
def argsUpdNullValues : JsVal :=
  .vObj [("table", .vStr "users"), ("values", .vNull), ("where", .vStr "id = 1")]

theorem missing_values_aborts_before_execution_witness :
    (runTry dbOk "update" argsUpdNullValues).1 = [] ∧
    (dispatch dbOk "update" argsUpdNullValues).1 =
      errorResponse "Cannot convert undefined or null to object" :=
  missing_values_aborts_before_execution dbOk argsUpdNullValues "update"
    (Or.inr rfl) (Or.inr rfl)

/-- C8: a call whose operation name is none of query, insert, update and
delete returns the unknown-tool error payload, the try block issues no
statement at all, the whole trace on the pooled connection is acquire,
the trailing ROLLBACK of the finally block, and release, and that trace
contains no connection-affecting statement: with no transaction open the
lone ROLLBACK is a no-op. -/
theorem unknown_operation_no_affecting_sql (db : DbOracle) (name : String) (args : JsVal)
    (h1 : name ≠ "query") (h2 : name ≠ "insert") (h3 : name ≠ "update") (h4 : name ≠ "delete") :
    (runTry db name args).1 = [] ∧
    (dispatch db name args).1 = errorResponse ("Unknown tool: " ++ name) ∧
    (dispatch db name args).2 = [.acquire, .exec (.vStr "ROLLBACK") [], .release] ∧
    affecting false (execsOf (dispatch db name args).2) = [] := by
  refine ⟨?_, ?_, ?_, ?_⟩ <;>
    simp [runTry, dispatch, h1, h2, h3, h4, errorResponse, execsOf, affecting]

theorem unknown_operation_no_affecting_sql_witness :
    (runTry dbOk "unknown_op2" (.vObj [])).1 = [] ∧
    (dispatch dbOk "unknown_op2" (.vObj [])).1 = errorResponse "Unknown tool: unknown_op2" ∧
    (dispatch dbOk "unknown_op2" (.vObj [])).2 =
      [.acquire, .exec (.vStr "ROLLBACK") [], .release] ∧
    affecting false (execsOf (dispatch dbOk "unknown_op2" (.vObj [])).2) = [] :=
  unknown_operation_no_affecting_sql dbOk "unknown_op2" (.vObj [])
    (by decide) (by decide) (by decide) (by decide)

/-- C9 counterexample: the SQL text the code builds for the scenario
insert into users of name Alice and age 30 is not the exact text the
claim states: the code joins both the column list and the placeholder
list with a comma followed by a space, while the claimed text has no
space after the commas. -/
theorem insert_scenario_sql_text_differs :
    insertSql (.vStr "users") [("name", .vStr "Alice"), ("age", .vNum 30)] ≠
      "INSERT INTO \x22users\x22 (\x22name\x22,\x22age\x22) VALUES ($1,$2) RETURNING *" := by
  decide

/-- C9 amended: for the scenario insert into users of name Alice and age
30, the built SQL text is exactly the INSERT template with comma-space
separators, the parameter list is exactly the string Alice followed by
the number 30, and on a database that returns the created row the call
succeeds with the serialized new row as its single content item, the
executed statement being exactly the built one with those parameters. -/
theorem insert_scenario_corrected :
    insertSql (.vStr "users") [("name", .vStr "Alice"), ("age", .vNum 30)] =
      "INSERT INTO \x22users\x22 (\x22name\x22, \x22age\x22) VALUES ($1, $2) RETURNING *" ∧
    insertValues [("name", .vStr "Alice"), ("age", .vNum 30)] = [.vStr "Alice", .vNum 30] ∧
    dispatch dbOk "insert" argsIns =
      (⟨[jsonStringify rowAlice], false⟩,
        [.acquire,
         .exec (.vStr (insertSql (.vStr "users") [("name", .vStr "Alice"), ("age", .vNum 30)]))
           [.vStr "Alice", .vNum 30],
         .exec (.vStr "ROLLBACK") [], .release]) := by
  exact ⟨by decide, rfl, rfl⟩

/-- C10: for every insert or update call whose argument map carries no
values key at all, the property access yields undefined, Object.keys (or
Object.entries) throws before any INSERT or UPDATE statement is sent, so
the only statement issued on the leased connection during the whole call
is the trailing ROLLBACK of the finally block, and the call returns an
error payload with isError true. -/
theorem no_values_key_only_rollback (db : DbOracle) (es : List (String × JsVal)) (name : String)
    (hn : name = "insert" ∨ name = "update")
    (hfind : es.find? (fun p => p.1 == "values") = none) :
    (dispatch db name (.vObj es)).2 = [.acquire, .exec (.vStr "ROLLBACK") [], .release] ∧
    (dispatch db name (.vObj es)).1 =
      errorResponse "Cannot convert undefined or null to object" ∧
    (dispatch db name (.vObj es)).1.isError = true := by
  have hv : getProp (.vObj es) "values" = .ok .vUndefined := by
    simp [getProp, hfind]
  rcases hn with rfl | rfl <;>
    refine ⟨?_, ?_, ?_⟩ <;>
      simp [runTry, runInsert, runUpdate, dispatch, hv, objectEntries, errorResponse]

theorem no_values_key_only_rollback_witness :
    (dispatch dbOk "insert" (.vObj [("table", JsVal.vStr "users")])).2 =
      [.acquire, .exec (.vStr "ROLLBACK") [], .release] ∧
    (dispatch dbOk "insert" (.vObj [("table", JsVal.vStr "users")])).1 =
      errorResponse "Cannot convert undefined or null to object" ∧
    (dispatch dbOk "insert" (.vObj [("table", JsVal.vStr "users")])).1.isError = true :=
  no_values_key_only_rollback dbOk [("table", JsVal.vStr "users")] "insert"
    (Or.inl rfl) rfl

end PgMcp
